import Mathlib

/-!
# Verification of the ODBC connection pool (`odbc_connection_pool.{h,cpp}`)

A shallow embedding of the connection pool's state and operations, translated
from the C++ sources:

* `Connection` models `odbc::Connection` from `odbc_wrapper.h`; its
  `is_connected()` simply returns the cached `connected_` flag, so a
  connection value carries that flag as a field.
* Owning pointers (`std::unique_ptr<Connection>`, the undeclared
  `Connection::Ptr` alias used by the pool) are modelled as
  `Option Connection`; a moved-from pointer is `none`.
* `PoolConnectionHandle`, `ConnectionPoolConfig`, the pool state and the pool
  member functions (`borrow_from_pool`, `get_connection`, `return_connection`,
  `shutdown`, one `health_check_task` cycle, the constructor) are translated
  statement by statement from `odbc_connection_pool.h` /
  `odbc_connection_pool.cpp`.
* External nondeterminism (whether `std::make_unique<Connection>(config)`
  throws, what the concurrently observed `shutdown_` flag reads, whether the
  acquire deadline elapsed) is supplied as explicit inputs.
-/

namespace odbc

/-- Model of `odbc::Connection` (odbc_wrapper.h, lines 407-941).  `id` stands for the
object identity (the raw pointer value); `connected` is the `connected_`
member that `is_connected() const` returns (line 721). -/
structure Connection where
  id : Nat
  connected : Bool
deriving DecidableEq, Repr

/-- Model of `odbc::ConnectionPoolConfig` (odbc_connection_pool.h, lines 21-32), with
the source's default member values.  Fields irrelevant to pool-state behaviour
(the timeouts and the opaque `connection_config`) are kept as plain numbers. -/
structure ConnectionPoolConfig where
  min_connections : Nat := 5
  max_connections : Nat := 20
  max_idle_time : Nat := 300
  connection_timeout : Nat := 30
  validation_interval : Nat := 60
  test_on_borrow : Bool := true
  test_on_return : Bool := false
deriving DecidableEq, Repr

/-- The protected state of `odbc::ConnectionPool` (odbc_connection_pool.h,
lines 171-185): the configuration member `config_`, the idle queue (head =
`front()`, push appends at the back), the active set (`std::unordered_set`,
modelled as a list of owned connections), and the counters
`total_connections_`, `waiting_requests_`, `shutdown_`. -/
structure PoolState where
  config : ConnectionPoolConfig
  idle_connections : List Connection
  active_connections : List Connection
  total_connections : Nat
  waiting_requests : Nat
  shutdown_flag : Bool
deriving DecidableEq, Repr

/-- Errors surfaced by the pool and the handle.  `invalidHandle` is the
`std::runtime_error("Connection handle is invalid")` thrown by the handle's
delegated operations; `notConnected` is `Connection`'s own
`std::runtime_error("Not connected to database")` guard. -/
inductive PoolError where
  | invalidHandle
  | notConnected
deriving DecidableEq, Repr

/-- Model of `odbc::PoolConnectionHandle` (odbc_connection_pool.h, lines 35-107).
`conn` is the owned pointer `conn_` (`none` = null); `hasRelease` records
whether `release_func_` is a callable target (it is null after being
moved from, header line 69/76). -/
structure PoolConnectionHandle where
  conn : Option Connection
  hasRelease : Bool
deriving DecidableEq, Repr

/-- Model of `PoolConnectionHandle::is_connected` (header lines 81-86): throws
`invalidHandle` when `conn_` is null, otherwise delegates to
`Connection::is_connected`, which returns the `connected_` flag. -/
def PoolConnectionHandle.is_connected (h : PoolConnectionHandle) :
    Except PoolError Bool :=
  match h.conn with
  | none => .error .invalidHandle
  | some c => .ok c.connected

/-- Model of `PoolConnectionHandle::execute` (header lines 88-93): throws
`invalidHandle` when `conn_` is null, otherwise delegates to
`Connection::execute` (odbc_wrapper.h lines 530-547), whose own guard throws
`notConnected` on a disconnected connection and whose actual database effect
is the opaque environment function `db`. -/
def PoolConnectionHandle.execute (db : Connection → String → Except PoolError Nat)
    (h : PoolConnectionHandle) (sql : String) : Except PoolError Nat :=
  match h.conn with
  | none => .error .invalidHandle
  | some c => if c.connected then db c sql else .error .notConnected

/-- Model of `PoolConnectionHandle::query` (header lines 95-100): same shape as
`execute`, with an opaque result type standing for `ResultSet`. -/
def PoolConnectionHandle.query (db : Connection → String → Except PoolError (List Nat))
    (h : PoolConnectionHandle) (sql : String) : Except PoolError (List Nat) :=
  match h.conn with
  | none => .error .invalidHandle
  | some c => if c.connected then db c sql else .error .notConnected

/-- The move constructor / move assignment of `PoolConnectionHandle` (header
lines 66-79): the destination takes `conn_` and `release_func_`, the source is
left with a null `conn_` (moved-from `unique_ptr`) and a null `release_func_`
(set explicitly).  Returns `(destination, source after the move)`. -/
def PoolConnectionHandle.moveFrom (h : PoolConnectionHandle) :
    PoolConnectionHandle × PoolConnectionHandle :=
  (⟨h.conn, h.hasRelease⟩, ⟨none, false⟩)

/-- Erase from the active set the (unique) element with the given object
identity; models `std::unordered_set::erase(conn)`, which compares the stored
`unique_ptr`s by raw pointer value. -/
def eraseById (l : List Connection) (i : Nat) : List Connection :=
  match l with
  | [] => []
  | c :: rest => if c.id = i then rest else c :: eraseById rest i

/-- Model of `ConnectionPool::return_connection` (odbc_connection_pool.cpp, lines
183-214).  Returns the new pool state together with whether
`condition_.notify_one()` was reached.  Early return when the pointer is null
or `shutdown_` is set; otherwise the connection is erased from the active set,
then either discarded with `total_connections_--` (when `test_on_return` is
set and the connection is not connected) or pushed at the back of the idle
queue followed by `notify_one`. -/
def return_connection (s : PoolState) (conn : Option Connection) :
    PoolState × Bool :=
  match conn with
  | none => (s, false)
  | some c =>
    if s.shutdown_flag then (s, false)
    else
      let s1 := { s with active_connections := eraseById s.active_connections c.id }
      if s.config.test_on_return && !c.connected then
        ({ s1 with total_connections := s1.total_connections - 1 }, false)
      else
        ({ s1 with idle_connections := s1.idle_connections ++ [c] }, true)

/-- The destructor of `PoolConnectionHandle` (header lines 46-59) as it acts
on a live pool: if `conn_` is non-null and `release_func_` is callable, the
lambda installed by the pool runs `return_connection`; if `release_func_` is
null the `std::bad_function_call` is swallowed by the destructor's
`try`/`catch`; a null `conn_` skips the call entirely. -/
def PoolConnectionHandle.destroy (s : PoolState) (h : PoolConnectionHandle) :
    PoolState :=
  match h.conn, h.hasRelease with
  | some c, true => (return_connection s (some c)).1
  | _, _ => s

/-- Result of `ConnectionPool::borrow_from_pool`: the updated pool state and
the returned `PoolConnectionHandle::Ptr` (`none` = `nullptr`). -/
structure BorrowOutcome where
  pool : PoolState
  result : Option PoolConnectionHandle
deriving DecidableEq, Repr

/-- The creation attempt at the end of `borrow_from_pool`
(odbc_connection_pool.cpp, lines 154-180).  `fresh` tells whether
`std::make_unique<Connection>(config_.connection_config)` succeeds and, if so,
which identity the new (connected) object has; a throwing constructor is
caught and `nullptr` is returned.  On success the new connection is inserted
into the active set and `total_connections_++`; the handle is then constructed
from the *already moved-from* pointer `conn`, so its `conn_` is null while its
`release_func_` is the valid lambda. -/
def tryCreate (fresh : Option Nat) (s : PoolState) : BorrowOutcome :=
  if s.total_connections < s.config.max_connections then
    match fresh with
    | some fid =>
      { pool := { s with
            active_connections := ⟨fid, true⟩ :: s.active_connections,
            total_connections := s.total_connections + 1 },
        result := some ⟨none, true⟩ }
    | none => { pool := s, result := none }
  else { pool := s, result := none }

/-- Model of `ConnectionPool::borrow_from_pool` (odbc_connection_pool.cpp, lines
123-181).  If the idle queue is non-empty its front is popped;
`conn->is_connected()` is checked unconditionally: a connected front is
inserted into the active set (`active_connections_.insert(std::move(conn))`)
and the handle is then built from the moved-from `conn`, so the returned
handle's `conn_` is null; a disconnected front is discarded with
`total_connections_--` and control falls through to the creation attempt, as
it does when the idle queue is empty. -/
def borrow_from_pool (fresh : Option Nat) (s : PoolState) : BorrowOutcome :=
  match s.idle_connections with
  | conn :: rest =>
    if conn.connected then
      { pool := { s with
            idle_connections := rest,
            active_connections := conn :: s.active_connections },
        result := some ⟨none, true⟩ }
    else
      tryCreate fresh { s with
        idle_connections := rest,
        total_connections := s.total_connections - 1 }
  | [] => tryCreate fresh s

/-- Model of `ConnectionPool::shutdown` (odbc_connection_pool.cpp, lines 32-58):
`shutdown_.exchange(true)` makes a second call a no-op; the first call sets
the flag, notifies all waiters, joins the background threads, drains the idle
queue and clears the active set.  `total_connections_` is left untouched. -/
def shutdown (s : PoolState) : PoolState :=
  if s.shutdown_flag then s
  else
    { s with
      shutdown_flag := true,
      idle_connections := [],
      active_connections := [] }

/-- The `ConnectionPool` constructor (odbc_connection_pool.cpp, lines 7-26):
the warm-up loop runs `min_connections` iterations, each creating a connected
`Connection` and pushing it on the idle queue with `total_connections_++`; a
creation failure aborts the loop (caught and logged, construction proceeds).
`ids` lists the identities actually created, in order, so
`ids.length ≤ min_connections`. -/
def construct (cfg : ConnectionPoolConfig) (ids : List Nat) : PoolState :=
  { config := cfg,
    idle_connections := ids.map (fun i => (⟨i, true⟩ : Connection)),
    active_connections := [],
    total_connections := ids.length,
    waiting_requests := 0,
    shutdown_flag := false }

/-- The drain loop of one `health_check_task` cycle (odbc_connection_pool.cpp,
lines 246-256): pop every idle connection, append the connected ones to the
`healthy_connections` queue, decrement `total_connections_` for each
disconnected one.  Returns the healthy queue and the new total. -/
def health_sweep : List Connection → List Connection → Nat → List Connection × Nat
  | [], healthy, total => (healthy, total)
  | c :: rest, healthy, total =>
    if c.connected then health_sweep rest (healthy ++ [c]) total
    else health_sweep rest healthy (total - 1)

/-- One cycle of `ConnectionPool::health_check_task` (odbc_connection_pool.cpp,
lines 240-263): under the lock, the idle queue is drained through
`health_sweep` and replaced by the healthy queue.  The active set, the waiting
counter and the shutdown flag are not touched. -/
def health_check_cycle (s : PoolState) : PoolState :=
  let swept := health_sweep s.idle_connections [] s.total_connections
  { s with idle_connections := swept.1, total_connections := swept.2 }

/-- External inputs consumed by one iteration of the retry loop in
`ConnectionPool::get_connection` (odbc_connection_pool.cpp, lines 71-117):
`shutdownSignal` is whether the `while (!shutdown_)` read at the loop head
observes a concurrent `shutdown()`; `fresh` is the outcome of the
`std::make_unique<Connection>` call inside `borrow_from_pool`; `fresh2` is the
outcome of the `std::make_unique<Connection>` call in the `test_on_borrow`
replacement branch (cpp line 82); `timedOut` is whether
`elapsed >= timeout` holds at cpp line 109. -/
structure AcquireStep where
  shutdownSignal : Bool
  fresh : Option Nat
  fresh2 : Option Nat
  timedOut : Bool
deriving DecidableEq, Repr

/-- How a completed call to `ConnectionPool::get_connection` ends: a returned
handle, or one of the thrown `std::runtime_error`s — "Connection pool is
shutdown" (cpp lines 64 and 120), "Timeout waiting for database connection"
(cpp line 112), "Connection handle is invalid" (thrown by
`connHandle->is_connected()` at cpp line 79 when the handle's `conn_` is
null), or "Failed to create valid connection" (cpp line 99). -/
inductive AcquireResult where
  | ok (h : PoolConnectionHandle)
  | errShutdown
  | errTimeout
  | errInvalidHandle
  | errCreateFailed
deriving DecidableEq, Repr

/-- The retry loop of `ConnectionPool::get_connection` (odbc_connection_pool.cpp,
lines 71-120), entered after `waiting_requests_++`.  Each iteration consumes
one `AcquireStep`; an exhausted step list means the call is still running
(`none`).  The loop head re-reads `shutdown_` (its own flag or a concurrent
signal); on exit it runs lines 119-120 (`waiting_requests_--` and the shutdown
error).  A successful borrow decrements `waiting_requests_` (line 75) and,
when `test_on_borrow` is set, re-checks `connHandle->is_connected()` (line
79): on a null `conn_` this throws the invalid-handle error; on a disconnected
connection the replacement branch (lines 81-101) builds a brand-new handle
without registering the new connection anywhere — the abandoned `connHandle`
is destroyed on the way out, which runs its release function.  A failed borrow
checks the timeout (lines 108-113) and otherwise sleeps and retries. -/
def get_connection_loop : List AcquireStep → PoolState → PoolState × Option AcquireResult
  | [], s => (s, none)
  | step :: rest, s =>
    if s.shutdown_flag || step.shutdownSignal then
      ({ s with waiting_requests := s.waiting_requests - 1 }, some .errShutdown)
    else
      let out := borrow_from_pool step.fresh s
      match out.result with
      | some handle =>
        let s1 := { out.pool with waiting_requests := out.pool.waiting_requests - 1 }
        if s1.config.test_on_borrow then
          match handle.conn with
          | none => (s1, some .errInvalidHandle)
          | some c =>
            if c.connected then (s1, some (.ok handle))
            else
              match step.fresh2 with
              | some fid =>
                (PoolConnectionHandle.destroy s1 handle,
                  some (.ok ⟨some ⟨fid, true⟩, true⟩))
              | none =>
                (PoolConnectionHandle.destroy s1 handle, some .errCreateFailed)
        else (s1, some (.ok handle))
      | none =>
        if step.timedOut then
          ({ out.pool with waiting_requests := out.pool.waiting_requests - 1 },
            some .errTimeout)
        else
          get_connection_loop rest out.pool

/-- Model of `ConnectionPool::get_connection` (odbc_connection_pool.cpp, lines
60-121): the entry check of `shutdown_` (lines 63-65) throws before touching
`waiting_requests_`; otherwise `waiting_requests_++` (line 67) and the retry
loop runs. -/
def get_connection (steps : List AcquireStep) (s : PoolState) :
    PoolState × Option AcquireResult :=
  if s.shutdown_flag then (s, some .errShutdown)
  else get_connection_loop steps
    { s with waiting_requests := s.waiting_requests + 1 }

/-- The counter invariant claimed by the spec:
`idle_count + active_count = total_count ≤ max_size`. -/
abbrev poolInvariant (s : PoolState) : Prop :=
  s.idle_connections.length + s.active_connections.length = s.total_connections ∧
  s.total_connections ≤ s.config.max_connections

/-! ## Example configurations and states used by concrete evaluations -/

/-- A configuration with `test_on_borrow` switched off (all other fields at
their source defaults). -/
def cfgNB : ConnectionPoolConfig := { test_on_borrow := false }

/-- A one-slot pool configuration with `test_on_borrow` switched off. -/
def cfgOne : ConnectionPoolConfig :=
  { min_connections := 1, max_connections := 1, test_on_borrow := false }

/-- A loop iteration that observes no concurrent shutdown, no successful
creation and no elapsed timeout. -/
def step_plain : AcquireStep := ⟨false, none, none, false⟩

/-- A loop iteration whose timeout check at cpp line 109 fires. -/
def step_timeout : AcquireStep := ⟨false, none, none, true⟩

/-- A pool of capacity 2 holding a dead idle connection in front of a live
one, with `test_on_borrow` switched off. -/
def sTwoIdle : PoolState :=
  ⟨{ test_on_borrow := false, max_connections := 2 },
    [⟨0, false⟩, ⟨1, true⟩], [], 2, 0, false⟩

/-- A pool whose single connection (identity 3) is leased out. -/
def sOneActive : PoolState := ⟨{}, [], [⟨3, true⟩], 1, 0, false⟩

/-! ## Helper lemmas -/

theorem tryCreate_fields (fresh : Option Nat) (s : PoolState) :
    (tryCreate fresh s).pool.waiting_requests = s.waiting_requests ∧
    (tryCreate fresh s).pool.shutdown_flag = s.shutdown_flag ∧
    (tryCreate fresh s).pool.config = s.config ∧
    (tryCreate fresh s).pool.idle_connections = s.idle_connections := by
  unfold tryCreate
  split
  · cases fresh <;> simp
  · simp

theorem borrow_fields (fresh : Option Nat) (s : PoolState) :
    (borrow_from_pool fresh s).pool.waiting_requests = s.waiting_requests ∧
    (borrow_from_pool fresh s).pool.shutdown_flag = s.shutdown_flag ∧
    (borrow_from_pool fresh s).pool.config = s.config := by
  unfold borrow_from_pool
  split
  · next c rest heq =>
    split
    · simp
    · have h := tryCreate_fields fresh
        { s with idle_connections := rest, total_connections := s.total_connections - 1 }
      exact ⟨h.1, h.2.1, h.2.2.1⟩
  · have h := tryCreate_fields fresh s
    exact ⟨h.1, h.2.1, h.2.2.1⟩

theorem return_connection_fields (s : PoolState) (conn : Option Connection) :
    (return_connection s conn).1.waiting_requests = s.waiting_requests ∧
    (return_connection s conn).1.shutdown_flag = s.shutdown_flag ∧
    (return_connection s conn).1.config = s.config := by
  unfold return_connection
  cases conn with
  | none => simp
  | some c =>
    by_cases hs : s.shutdown_flag
    · simp [hs]
    · simp only [hs, if_false, Bool.false_eq_true]
      split <;> simp

theorem destroy_fields (s : PoolState) (h : PoolConnectionHandle) :
    (PoolConnectionHandle.destroy s h).waiting_requests = s.waiting_requests ∧
    (PoolConnectionHandle.destroy s h).shutdown_flag = s.shutdown_flag ∧
    (PoolConnectionHandle.destroy s h).config = s.config := by
  unfold PoolConnectionHandle.destroy
  split
  · exact return_connection_fields _ _
  · exact ⟨rfl, rfl, rfl⟩

theorem tryCreate_result_shape {fresh : Option Nat} {s : PoolState}
    {h : PoolConnectionHandle} (hr : (tryCreate fresh s).result = some h) :
    h = ⟨none, true⟩ := by
  unfold tryCreate at hr
  split at hr
  · cases fresh <;> simp_all
  · simp at hr

theorem borrow_result_shape {fresh : Option Nat} {s : PoolState}
    {h : PoolConnectionHandle} (hr : (borrow_from_pool fresh s).result = some h) :
    h = ⟨none, true⟩ := by
  unfold borrow_from_pool at hr
  split at hr
  · split at hr
    · simp_all
    · exact tryCreate_result_shape hr
  · exact tryCreate_result_shape hr

theorem inv_tryCreate {fresh : Option Nat} {s : PoolState}
    (h : poolInvariant s) : poolInvariant (tryCreate fresh s).pool := by
  unfold tryCreate
  split
  · next hlt =>
    cases fresh with
    | none => exact h
    | some fid =>
      obtain ⟨h1, h2⟩ := h
      refine ⟨?_, ?_⟩ <;> simp <;> omega
  · exact h

theorem inv_borrow {fresh : Option Nat} {s : PoolState}
    (h : poolInvariant s) : poolInvariant (borrow_from_pool fresh s).pool := by
  obtain ⟨h1, h2⟩ := h
  unfold borrow_from_pool
  split
  · next c rest heq =>
    rw [heq] at h1
    split
    · refine ⟨?_, ?_⟩ <;> simp at h1 ⊢ <;> omega
    · apply inv_tryCreate
      refine ⟨?_, ?_⟩ <;> simp at h1 ⊢ <;> omega
  · exact inv_tryCreate ⟨h1, h2⟩

theorem eraseById_length {l : List Connection} {i : Nat}
    (h : i ∈ l.map Connection.id) :
    (eraseById l i).length + 1 = l.length := by
  induction l with
  | nil => simp at h
  | cons c rest ih =>
    by_cases hc : c.id = i
    · simp [eraseById, hc]
    · have hmem : i ∈ rest.map Connection.id := by
        simp at h
        rcases h with h | h
        · exact absurd h.symm hc
        · simpa using h
      have := ih hmem
      simp [eraseById, hc]
      omega

theorem eraseById_not_mem {l : List Connection} {i : Nat}
    (nd : (l.map Connection.id).Nodup) :
    i ∉ (eraseById l i).map Connection.id := by
  induction l with
  | nil => simp [eraseById]
  | cons c rest ih =>
    rw [List.map_cons, List.nodup_cons] at nd
    by_cases hc : c.id = i
    · subst hc
      simpa [eraseById] using nd.1
    · simp only [eraseById, hc, if_false, List.map_cons, List.mem_cons]
      push_neg
      exact ⟨fun h => hc h.symm, ih nd.2⟩

theorem filter_partition (l : List Connection) :
    (l.filter (fun c => c.connected)).length
      + (l.filter (fun c => !c.connected)).length = l.length := by
  induction l with
  | nil => simp
  | cons c rest ih =>
    by_cases hc : c.connected <;> simp [List.filter_cons, hc] <;> omega

theorem health_sweep_spec (l : List Connection) : ∀ acc total,
    health_sweep l acc total =
      (acc ++ l.filter (fun c => c.connected),
        total - (l.filter (fun c => !c.connected)).length) := by
  induction l with
  | nil => intro acc total; simp [health_sweep]
  | cons c rest ih =>
    intro acc total
    by_cases hc : c.connected
    · simp [health_sweep, hc, ih, List.filter_cons]
    · simp [health_sweep, hc, ih, List.filter_cons, Nat.sub_sub, Nat.add_comm]

/-- One-step equation for the acquire retry loop, with the dead
`test_on_borrow` replacement branch resolved: a successful borrow always
produces the handle `⟨none, true⟩`, whose null `conn_` sends the
`test_on_borrow` re-check straight into the invalid-handle error. -/
theorem get_connection_loop_cons (step : AcquireStep) (rest : List AcquireStep)
    (s : PoolState) :
    get_connection_loop (step :: rest) s =
      if s.shutdown_flag || step.shutdownSignal then
        ({ s with waiting_requests := s.waiting_requests - 1 }, some .errShutdown)
      else
        match (borrow_from_pool step.fresh s).result with
        | some _ =>
          let s1 := { (borrow_from_pool step.fresh s).pool with
            waiting_requests :=
              (borrow_from_pool step.fresh s).pool.waiting_requests - 1 }
          if s1.config.test_on_borrow then (s1, some .errInvalidHandle)
          else (s1, some (.ok ⟨none, true⟩))
        | none =>
          if step.timedOut then
            ({ (borrow_from_pool step.fresh s).pool with
                waiting_requests :=
                  (borrow_from_pool step.fresh s).pool.waiting_requests - 1 },
              some .errTimeout)
          else get_connection_loop rest (borrow_from_pool step.fresh s).pool := by
  by_cases hsd : (s.shutdown_flag || step.shutdownSignal) = true
  · simp only [get_connection_loop]
    rw [if_pos hsd, if_pos hsd]
  · simp only [get_connection_loop]
    rw [if_neg hsd, if_neg hsd]
    cases hres : (borrow_from_pool step.fresh s).result with
    | some handle =>
      have hshape := borrow_result_shape hres
      subst hshape
      simp only [hres]
    | none => simp only [hres]

theorem get_connection_loop_waiting :
    ∀ (steps : List AcquireStep) (s s2 : PoolState) (r : AcquireResult),
      get_connection_loop steps s = (s2, some r) →
      s2.waiting_requests = s.waiting_requests - 1 := by
  intro steps
  induction steps with
  | nil => intro s s2 r h; simp [get_connection_loop] at h
  | cons step rest ih =>
    intro s s2 r h
    rw [get_connection_loop_cons] at h
    by_cases hsd : (s.shutdown_flag || step.shutdownSignal) = true
    · rw [if_pos hsd] at h
      injection h with h1 h2
      subst h1
      rfl
    · rw [if_neg hsd] at h
      have hw := (borrow_fields step.fresh s).1
      cases hres : (borrow_from_pool step.fresh s).result with
      | some handle =>
        simp only [hres] at h
        by_cases ht : ((borrow_from_pool step.fresh s).pool.config.test_on_borrow) = true
        · rw [if_pos ht] at h
          injection h with h1 h2
          subst h1
          simp [hw]
        · rw [if_neg ht] at h
          injection h with h1 h2
          subst h1
          simp [hw]
      | none =>
        simp only [hres] at h
        by_cases ht : step.timedOut = true
        · rw [if_pos ht] at h
          injection h with h1 h2
          subst h1
          simp [hw]
        · rw [if_neg ht] at h
          rw [ih _ _ _ h, hw]

theorem get_connection_loop_flag (steps : List AcquireStep) (s : PoolState) :
    (get_connection_loop steps s).1.shutdown_flag = s.shutdown_flag := by
  induction steps generalizing s with
  | nil => rfl
  | cons step rest ih =>
    rw [get_connection_loop_cons]
    by_cases hsd : (s.shutdown_flag || step.shutdownSignal) = true
    · rw [if_pos hsd]
    · rw [if_neg hsd]
      have hf := (borrow_fields step.fresh s).2.1
      cases hres : (borrow_from_pool step.fresh s).result with
      | some handle =>
        by_cases ht : ((borrow_from_pool step.fresh s).pool.config.test_on_borrow) = true
        · simp only []
          rw [if_pos ht]
          exact hf
        · simp only []
          rw [if_neg ht]
          exact hf
      | none =>
        simp only []
        by_cases ht : step.timedOut = true
        · rw [if_pos ht]
          exact hf
        · rw [if_neg ht, ih, hf]

theorem get_connection_loop_config (steps : List AcquireStep) (s : PoolState) :
    (get_connection_loop steps s).1.config = s.config := by
  induction steps generalizing s with
  | nil => rfl
  | cons step rest ih =>
    rw [get_connection_loop_cons]
    by_cases hsd : (s.shutdown_flag || step.shutdownSignal) = true
    · rw [if_pos hsd]
    · rw [if_neg hsd]
      have hf := (borrow_fields step.fresh s).2.2
      cases hres : (borrow_from_pool step.fresh s).result with
      | some handle =>
        by_cases ht : ((borrow_from_pool step.fresh s).pool.config.test_on_borrow) = true
        · simp only []
          rw [if_pos ht]
          exact hf
        · simp only []
          rw [if_neg ht]
          exact hf
      | none =>
        simp only []
        by_cases ht : step.timedOut = true
        · rw [if_pos ht]
          exact hf
        · rw [if_neg ht, ih, hf]

theorem inv_waiting {s : PoolState} {w : Nat} (h : poolInvariant s) :
    poolInvariant { s with waiting_requests := w } := h

theorem get_connection_loop_inv (steps : List AcquireStep) (s : PoolState)
    (h : poolInvariant s) : poolInvariant (get_connection_loop steps s).1 := by
  induction steps generalizing s with
  | nil => exact h
  | cons step rest ih =>
    rw [get_connection_loop_cons]
    by_cases hsd : (s.shutdown_flag || step.shutdownSignal) = true
    · rw [if_pos hsd]
      exact inv_waiting h
    · rw [if_neg hsd]
      have hb := @inv_borrow step.fresh s h
      cases hres : (borrow_from_pool step.fresh s).result with
      | some handle =>
        by_cases ht : ((borrow_from_pool step.fresh s).pool.config.test_on_borrow) = true
        · simp only []
          rw [if_pos ht]
          exact inv_waiting hb
        · simp only []
          rw [if_neg ht]
          exact inv_waiting hb
      | none =>
        simp only []
        by_cases ht : step.timedOut = true
        · rw [if_pos ht]
          exact inv_waiting hb
        · rw [if_neg ht]
          exact ih _ hb

theorem get_connection_loop_outcomes :
    ∀ (steps : List AcquireStep) (s s2 : PoolState) (r : AcquireResult),
      get_connection_loop steps s = (s2, some r) →
      r ≠ .errCreateFailed ∧
      (s.config.test_on_borrow = false → r ≠ .errInvalidHandle) ∧
      (s.config.test_on_borrow = true →
        (r = .errShutdown ∨ r = .errTimeout ∨ r = .errInvalidHandle)) := by
  intro steps
  induction steps with
  | nil => intro s s2 r h; simp [get_connection_loop] at h
  | cons step rest ih =>
    intro s s2 r h
    rw [get_connection_loop_cons] at h
    by_cases hsd : (s.shutdown_flag || step.shutdownSignal) = true
    · rw [if_pos hsd] at h
      injection h with h1 h2
      injection h2 with h2
      subst h2
      exact ⟨by simp, fun _ => by simp, fun _ => Or.inl rfl⟩
    · rw [if_neg hsd] at h
      have hcfg := (borrow_fields step.fresh s).2.2
      cases hres : (borrow_from_pool step.fresh s).result with
      | some handle =>
        simp only [hres] at h
        by_cases ht : ((borrow_from_pool step.fresh s).pool.config.test_on_borrow) = true
        · rw [if_pos ht] at h
          injection h with h1 h2
          injection h2 with h2
          subst h2
          rw [hcfg] at ht
          refine ⟨by simp, fun hf => absurd ht (by rw [hf]; simp), fun _ => by simp⟩
        · rw [if_neg ht] at h
          injection h with h1 h2
          injection h2 with h2
          subst h2
          rw [hcfg] at ht
          refine ⟨by simp, fun _ => by simp, fun htr => absurd htr ht⟩
      | none =>
        simp only [hres] at h
        by_cases ht : step.timedOut = true
        · rw [if_pos ht] at h
          injection h with h1 h2
          injection h2 with h2
          subst h2
          exact ⟨by simp, fun _ => by simp, fun _ => Or.inr (Or.inl rfl)⟩
        · rw [if_neg ht] at h
          have hrec := ih _ _ _ h
          rw [hcfg] at hrec
          exact hrec

/-- The pool state reached from `construct {} [0]` by one successful borrow:
the single connection has moved to the active set and the waiting counter is
back to zero. -/
def sBorrowed : PoolState := ⟨{}, [], [⟨0, true⟩], 1, 0, false⟩

/-- Characterization of `return_connection` on a live pool (the
`shutdown_` early return not taken). -/
theorem return_connection_eq (s : PoolState) (c : Connection)
    (hs : s.shutdown_flag = false) :
    return_connection s (some c) =
      if s.config.test_on_return && !c.connected then
        ({ s with
            active_connections := eraseById s.active_connections c.id,
            total_connections := s.total_connections - 1 }, false)
      else
        ({ s with
            active_connections := eraseById s.active_connections c.id,
            idle_connections := s.idle_connections ++ [c] }, true) := by
  simp [return_connection, hs]

/-! ## Claim theorems -/

/-- C1, counterexample.  The claim "at every observation point (after
construction and after each completed acquire, return, shutdown, or
health-check cycle) `idle_count + active_count == total_count`" fails at the
observation point right after `shutdown()`: on a freshly constructed pool
holding one connection, `shutdown` drains the idle queue and clears the
active set but leaves `total_connections_` at 1, so `0 + 0 ≠ 1`. -/
theorem C1_counterexample :
    ¬ ((shutdown (construct {} [0])).idle_connections.length
        + (shutdown (construct {} [0])).active_connections.length
        = (shutdown (construct {} [0])).total_connections) := by
  decide

/-- C1, amended.  The counter invariant
`idle_count + active_count = total_count ≤ max_size` holds after construction
(given `min_size ≤ max_size`) and is preserved by `borrow_from_pool`, by a
complete or incomplete `get_connection` call, by `return_connection` of a
currently-active connection, and by a health-check cycle — but not by
`shutdown`, which empties both containers while leaving `total_count`
unchanged. -/
theorem C1_invariant_preserved (cfg : ConnectionPoolConfig) (ids : List Nat)
    (fresh : Option Nat) (s : PoolState) (steps : List AcquireStep)
    (c : Connection) :
    (ids.length ≤ cfg.min_connections → cfg.min_connections ≤ cfg.max_connections →
      poolInvariant (construct cfg ids)) ∧
    (poolInvariant s → poolInvariant (borrow_from_pool fresh s).pool) ∧
    (poolInvariant s → poolInvariant (get_connection steps s).1) ∧
    (poolInvariant s → c.id ∈ s.active_connections.map Connection.id →
      poolInvariant (return_connection s (some c)).1) ∧
    (poolInvariant s → poolInvariant (health_check_cycle s)) := by
  refine ⟨?_, fun h => inv_borrow h, ?_, ?_, ?_⟩
  · intro h1 h2
    refine ⟨by simp [construct], ?_⟩
    simp only [construct]
    omega
  · intro h
    unfold get_connection
    by_cases hs : s.shutdown_flag = true
    · rw [if_pos hs]
      exact h
    · rw [if_neg hs]
      exact get_connection_loop_inv _ _ (inv_waiting h)
  · intro h hmem
    obtain ⟨h1, h2⟩ := h
    by_cases hs : s.shutdown_flag = true
    · have : return_connection s (some c) = (s, false) := by
        simp [return_connection, hs]
      rw [this]
      exact ⟨h1, h2⟩
    · rw [return_connection_eq s c (by simpa using hs)]
      have hlen := eraseById_length hmem
      by_cases hcond : (s.config.test_on_return && !c.connected) = true
      · rw [if_pos hcond]
        refine ⟨?_, ?_⟩ <;> simp <;> omega
      · rw [if_neg hcond]
        refine ⟨?_, ?_⟩ <;> simp <;> omega
  · intro h
    obtain ⟨h1, h2⟩ := h
    have hp := filter_partition s.idle_connections
    unfold health_check_cycle
    rw [health_sweep_spec]
    refine ⟨?_, ?_⟩ <;> simp <;> omega

/-- C1, witness for the amended theorem at concrete inputs. -/
theorem C1_invariant_preserved_witness :
    poolInvariant (construct {} [0]) ∧
    poolInvariant (borrow_from_pool none sOneActive).pool ∧
    poolInvariant (get_connection [step_plain] sOneActive).1 ∧
    poolInvariant (return_connection sOneActive (some ⟨3, true⟩)).1 ∧
    poolInvariant (health_check_cycle sOneActive) := by
  have h := C1_invariant_preserved {} [0] none sOneActive [step_plain] ⟨3, true⟩
  exact ⟨h.1 (by decide) (by decide), h.2.1 (by decide), h.2.2.1 (by decide),
    h.2.2.2.1 (by decide) (by decide), h.2.2.2.2 (by decide)⟩

/-- C2 (code bug).  On a pool holding one live idle connection (identity 0),
`borrow_from_pool` moves the connection into the active set but — because
`active_connections_.insert(std::move(conn))` runs before the handle is
constructed from the same already-moved pointer — the returned lease handle
owns nothing: its `conn_` is null, so it is not bound to the obtained
resource. -/
theorem C2_handle_not_bound :
    (borrow_from_pool none (construct {} [0])).result
      = some ⟨none, true⟩ ∧
    (⟨0, true⟩ : Connection)
      ∈ (borrow_from_pool none (construct {} [0])).pool.active_connections := by
  decide

/-- C3 (code bug).  A full acquire/release cycle on a one-slot pool with
`test_on_borrow` off: acquire succeeds but hands back the null-bound handle
`⟨none, true⟩`; destroying the handle therefore never invokes the release
function, the pool state is unchanged, connection 0 stays in the active set,
the idle queue stays empty, and a subsequent acquire times out instead of
obtaining the released resource — the cycle leaks the connection. -/
theorem C3_release_leaks_resource :
    (get_connection [step_plain] (construct cfgOne [0])).2
      = some (.ok ⟨none, true⟩) ∧
    PoolConnectionHandle.destroy
        (get_connection [step_plain] (construct cfgOne [0])).1 ⟨none, true⟩
      = (get_connection [step_plain] (construct cfgOne [0])).1 ∧
    (PoolConnectionHandle.destroy
        (get_connection [step_plain] (construct cfgOne [0])).1
        ⟨none, true⟩).idle_connections = [] ∧
    (PoolConnectionHandle.destroy
        (get_connection [step_plain] (construct cfgOne [0])).1
        ⟨none, true⟩).active_connections = [⟨0, true⟩] ∧
    (get_connection [step_timeout]
        (PoolConnectionHandle.destroy
          (get_connection [step_plain] (construct cfgOne [0])).1
          ⟨none, true⟩)).2 = some .errTimeout := by
  decide

/-- C4, counterexample.  With the default configuration
(`test_on_borrow = true`) and one live idle connection, acquire terminates
with the invalid-handle error ("Connection handle is invalid") thrown by the
post-borrow re-check on the null-bound handle — an outcome that is neither a
returned handle nor `PoolTimeout` nor `PoolShutdown`. -/
theorem C4_counterexample :
    (get_connection [step_plain] (construct {} [0])).2
      = some .errInvalidHandle := by
  decide

/-- C4, amended.  Every completed `get_connection` call ends as a returned
handle, `PoolTimeout`, `PoolShutdown`, or — exactly when `test_on_borrow` is
set and a borrow succeeds — the invalid-handle error from re-checking the
null-bound handle.  "Failed to create valid connection" is never surfaced
(its branch is unreachable), and creation failures inside `borrow_from_pool`
are absorbed into waiting. -/
theorem C4_acquire_outcomes (steps : List AcquireStep) (s s2 : PoolState)
    (r : AcquireResult) (h : get_connection steps s = (s2, some r)) :
    r ≠ .errCreateFailed ∧
    (s.config.test_on_borrow = false → r ≠ .errInvalidHandle) ∧
    (s.config.test_on_borrow = true →
      (r = .errShutdown ∨ r = .errTimeout ∨ r = .errInvalidHandle)) := by
  unfold get_connection at h
  by_cases hs : s.shutdown_flag = true
  · rw [if_pos hs] at h
    injection h with h1 h2
    injection h2 with h2
    subst h2
    exact ⟨by simp, fun _ => by simp, fun _ => Or.inl rfl⟩
  · rw [if_neg hs] at h
    have hc := get_connection_loop_outcomes steps
      { s with waiting_requests := s.waiting_requests + 1 } s2 r h
    exact hc

/-- C4, witness for the amended theorem at concrete inputs. -/
theorem C4_acquire_outcomes_witness :
    AcquireResult.errInvalidHandle ≠ AcquireResult.errCreateFailed ∧
    ((construct {} [0]).config.test_on_borrow = false →
      AcquireResult.errInvalidHandle ≠ AcquireResult.errInvalidHandle) ∧
    ((construct {} [0]).config.test_on_borrow = true →
      (AcquireResult.errInvalidHandle = .errShutdown ∨
       AcquireResult.errInvalidHandle = .errTimeout ∨
       AcquireResult.errInvalidHandle = .errInvalidHandle)) :=
  C4_acquire_outcomes [step_plain] (construct {} [0]) sBorrowed
    .errInvalidHandle (by decide)

/-- C5, counterexample.  With `test_on_borrow = false` the claim predicts no
liveness check on the popped idle resource, and on a failed check it predicts
popping another idle resource within the same attempt.  The code does
neither: on a pool whose idle queue is `[dead, live]`, `borrow_from_pool`
checks and discards the dead front (`total_connections_` drops from 2 to 1)
even though `test_on_borrow` is unset, and returns `nullptr` without popping
the live idle connection that is still queued. -/
theorem C5_counterexample :
    (borrow_from_pool none sTwoIdle).result = none ∧
    (borrow_from_pool none sTwoIdle).pool.total_connections = 1 ∧
    (borrow_from_pool none sTwoIdle).pool.idle_connections = [⟨1, true⟩] := by
  decide

/-- C5, amended.  When `borrow_from_pool` pops an idle resource its liveness
is always checked, regardless of `test_on_borrow`; if the check fails the
resource is discarded with `total_connections_--` and the call falls through
to the creation attempt on the reduced state — it never pops a second idle
resource in the same call (with no successful creation the call returns
`nullptr`, and another pop happens only on a later `get_connection`
iteration). -/
theorem C5_dead_head_discarded (fresh : Option Nat) (s : PoolState)
    (c : Connection) (rest : List Connection)
    (hidle : s.idle_connections = c :: rest) (hdead : c.connected = false)
    (htot : 0 < s.total_connections) :
    borrow_from_pool fresh s =
      tryCreate fresh { s with
        idle_connections := rest,
        total_connections := s.total_connections - 1 } ∧
    (borrow_from_pool fresh s).pool.idle_connections = rest ∧
    (fresh = none → (borrow_from_pool fresh s).result = none) ∧
    (fresh = none →
      (borrow_from_pool fresh s).pool.total_connections + 1
        = s.total_connections) := by
  have heq : borrow_from_pool fresh s =
      tryCreate fresh { s with
        idle_connections := rest,
        total_connections := s.total_connections - 1 } := by
    unfold borrow_from_pool
    rw [hidle]
    simp [hdead]
  refine ⟨heq, ?_, ?_, ?_⟩
  · rw [heq]
    exact (tryCreate_fields _ _).2.2.2
  · intro hf
    subst hf
    rw [heq]
    unfold tryCreate
    split <;> simp
  · intro hf
    subst hf
    rw [heq]
    have := (tryCreate_fields none { s with
      idle_connections := rest,
      total_connections := s.total_connections - 1 })
    unfold tryCreate
    split <;> simp <;> omega

/-- C5, witness for the amended theorem at concrete inputs. -/
theorem C5_dead_head_discarded_witness :
    borrow_from_pool none sTwoIdle =
      tryCreate none { sTwoIdle with
        idle_connections := [⟨1, true⟩],
        total_connections := sTwoIdle.total_connections - 1 } ∧
    (borrow_from_pool none sTwoIdle).pool.idle_connections = [⟨1, true⟩] ∧
    (borrow_from_pool none sTwoIdle).result = none ∧
    (borrow_from_pool none sTwoIdle).pool.total_connections + 1
      = sTwoIdle.total_connections := by
  have h := C5_dead_head_discarded none sTwoIdle ⟨0, false⟩ [⟨1, true⟩]
    (by decide) (by decide) (by decide)
  exact ⟨h.1, h.2.1, h.2.2.1 rfl, h.2.2.2 rfl⟩

/-- C6 (confirmed).  `return_connection` is a no-op on a shut-down pool; on a
live pool the returned connection's identity is removed from the active set
(one element, given distinct identities), after which the connection is
either discarded with `total_connections_--` (when `test_on_return` is set
and the liveness check fails, no notification) or appended at the back of
the idle queue with `condition_.notify_one()` reached. -/
theorem C6_return_connection_spec (s : PoolState) (c : Connection) :
    (s.shutdown_flag = true → return_connection s (some c) = (s, false)) ∧
    (s.shutdown_flag = false →
      (s.active_connections.map Connection.id).Nodup →
      c.id ∈ s.active_connections.map Connection.id →
      (c.id ∉ ((return_connection s (some c)).1.active_connections.map Connection.id) ∧
       (return_connection s (some c)).1.active_connections.length + 1
         = s.active_connections.length ∧
       ((s.config.test_on_return && !c.connected) = true →
         ((return_connection s (some c)).1.idle_connections = s.idle_connections ∧
          (return_connection s (some c)).2 = false ∧
          (0 < s.total_connections →
            (return_connection s (some c)).1.total_connections + 1
              = s.total_connections))) ∧
       ((s.config.test_on_return && !c.connected) = false →
         ((return_connection s (some c)).1.idle_connections
            = s.idle_connections ++ [c] ∧
          (return_connection s (some c)).1.total_connections
            = s.total_connections ∧
          (return_connection s (some c)).2 = true)))) := by
  constructor
  · intro hs
    simp [return_connection, hs]
  · intro hs nd hmem
    rw [return_connection_eq s c hs]
    have hlen := eraseById_length hmem
    have hnm := @eraseById_not_mem s.active_connections c.id nd
    by_cases hcond : (s.config.test_on_return && !c.connected) = true
    · rw [if_pos hcond]
      refine ⟨by simpa using hnm, by simpa using hlen, ?_, ?_⟩
      · intro _
        refine ⟨rfl, rfl, fun htot => ?_⟩
        simp
        omega
      · intro hcf
        rw [hcond] at hcf
        cases hcf
    · rw [if_neg hcond]
      refine ⟨by simpa using hnm, by simpa using hlen, ?_, ?_⟩
      · intro hcf
        exact absurd hcf hcond
      · intro _
        exact ⟨rfl, rfl, rfl⟩

/-- C6, witness at concrete inputs (live pool, default config, returning the
single active connection). -/
theorem C6_return_connection_spec_witness :
    (3 : Nat) ∉ ((return_connection sOneActive (some ⟨3, true⟩)).1.active_connections.map Connection.id) ∧
    (return_connection sOneActive (some ⟨3, true⟩)).1.idle_connections
      = sOneActive.idle_connections ++ [⟨3, true⟩] ∧
    (return_connection sOneActive (some ⟨3, true⟩)).2 = true := by
  have h := (C6_return_connection_spec sOneActive ⟨3, true⟩).2
    (by decide) (by decide) (by decide)
  exact ⟨h.1, (h.2.2.2 (by decide)).1, (h.2.2.2 (by decide)).2.2⟩

/-- C7 (confirmed).  `shutdown` leaves the flag set; starting from a
not-yet-shut-down pool it empties the idle queue; no pool operation ever
resets the flag (`borrow_from_pool`, `return_connection`,
`health_check_cycle` and `get_connection` all preserve it, and `shutdown`
only sets it); and every `get_connection` call on a shut-down pool fails
immediately with the shutdown error, leaving the state untouched. -/
theorem C7_shutdown_final (s s2 : PoolState) (steps : List AcquireStep)
    (fresh : Option Nat) (conn : Option Connection) :
    (shutdown s).shutdown_flag = true ∧
    (s.shutdown_flag = false → (shutdown s).idle_connections = []) ∧
    (borrow_from_pool fresh s2).pool.shutdown_flag = s2.shutdown_flag ∧
    (return_connection s2 conn).1.shutdown_flag = s2.shutdown_flag ∧
    (health_check_cycle s2).shutdown_flag = s2.shutdown_flag ∧
    (get_connection steps s2).1.shutdown_flag = s2.shutdown_flag ∧
    (s2.shutdown_flag = true →
      get_connection steps s2 = (s2, some .errShutdown)) := by
  refine ⟨?_, ?_, (borrow_fields fresh s2).2.1,
    (return_connection_fields s2 conn).2.1, rfl, ?_, ?_⟩
  · unfold shutdown
    split
    · next hs => exact hs
    · rfl
  · intro hs
    simp [shutdown, hs]
  · unfold get_connection
    by_cases hs : s2.shutdown_flag = true
    · rw [if_pos hs]
    · rw [if_neg hs]
      rw [get_connection_loop_flag]
  · intro hs
    simp [get_connection, hs]

/-- C7, witness at concrete inputs: shutting down a fresh one-connection pool
empties the idle queue, and an acquire on the shut-down pool fails with the
shutdown error. -/
theorem C7_shutdown_final_witness :
    (shutdown (construct {} [0])).idle_connections = [] ∧
    get_connection [step_plain] (shutdown (construct {} [0]))
      = (shutdown (construct {} [0]), some .errShutdown) := by
  have h := C7_shutdown_final (construct {} [0]) (shutdown (construct {} [0]))
    [step_plain] none none
  exact ⟨h.2.1 (by decide), h.2.2.2.2.2.2 (by decide)⟩

/-- C8 (confirmed).  One health-check cycle replaces the idle queue by
exactly the order-preserving subsequence of its connected members (a filter),
decrements `total_connections_` once per dead idle connection, and leaves the
active set (and the waiting counter and shutdown flag) unchanged. -/
theorem C8_health_cycle_filters (s : PoolState) :
    (health_check_cycle s).idle_connections
      = s.idle_connections.filter (fun c => c.connected) ∧
    (health_check_cycle s).active_connections = s.active_connections ∧
    (health_check_cycle s).waiting_requests = s.waiting_requests ∧
    (health_check_cycle s).shutdown_flag = s.shutdown_flag ∧
    ((s.idle_connections.filter (fun c => !c.connected)).length
        ≤ s.total_connections →
      (health_check_cycle s).total_connections
        + (s.idle_connections.filter (fun c => !c.connected)).length
        = s.total_connections) := by
  unfold health_check_cycle
  rw [health_sweep_spec]
  refine ⟨by simp, rfl, rfl, rfl, ?_⟩
  intro hle
  simp
  omega

/-- C8, witness at a concrete input (idle queue `[dead, live]`). -/
theorem C8_health_cycle_filters_witness :
    (health_check_cycle sTwoIdle).total_connections
      + (sTwoIdle.idle_connections.filter (fun c => !c.connected)).length
      = sTwoIdle.total_connections :=
  (C8_health_cycle_filters sTwoIdle).2.2.2.2 (by decide)

/-- C9 (confirmed).  On any lease handle that owns no connection (null
`conn_` — the state after release or after being moved from), each delegated
operation (`is_connected`, `execute`, `query`) fails with the invalid-handle
error without touching any connection; and a moved-from handle is indeed left
with a null `conn_` while the move destination takes over the pointer. -/
theorem C9_invalid_handle_ops (h h2 : PoolConnectionHandle)
    (db : Connection → String → Except PoolError Nat)
    (dbq : Connection → String → Except PoolError (List Nat)) (sql : String)
    (hnone : h.conn = none) :
    (h.is_connected = .error .invalidHandle ∧
     PoolConnectionHandle.execute db h sql = .error .invalidHandle ∧
     PoolConnectionHandle.query dbq h sql = .error .invalidHandle) ∧
    ((h2.moveFrom).2.conn = none ∧
     (h2.moveFrom).1.conn = h2.conn ∧
     (h2.moveFrom).2.is_connected = .error .invalidHandle ∧
     PoolConnectionHandle.execute db (h2.moveFrom).2 sql
       = .error .invalidHandle ∧
     PoolConnectionHandle.query dbq (h2.moveFrom).2 sql
       = .error .invalidHandle) := by
  refine ⟨⟨?_, ?_, ?_⟩, rfl, rfl, rfl, rfl, rfl⟩
  · simp [PoolConnectionHandle.is_connected, hnone]
  · simp [PoolConnectionHandle.execute, hnone]
  · simp [PoolConnectionHandle.query, hnone]

/-- C9, witness at concrete inputs. -/
theorem C9_invalid_handle_ops_witness :
    (⟨none, true⟩ : PoolConnectionHandle).is_connected
      = .error .invalidHandle ∧
    PoolConnectionHandle.execute (fun _ _ => .ok 0) ⟨none, true⟩ "SELECT 1"
      = .error .invalidHandle ∧
    ((⟨some ⟨0, true⟩, true⟩ : PoolConnectionHandle).moveFrom).2.conn = none := by
  have h := C9_invalid_handle_ops ⟨none, true⟩ ⟨some ⟨0, true⟩, true⟩
    (fun _ _ => .ok 0) (fun _ _ => .ok []) "SELECT 1" rfl
  exact ⟨h.1.1, h.1.2.1, h.2.1⟩

/-- C10 (confirmed).  For every completed `get_connection` call — returning a
handle or ending in any of the thrown errors — the waiting counter ends at
its entry value: the `waiting_requests_++` on entry is matched by exactly one
decrement on every exit path (and the shutdown entry check exits before
incrementing at all). -/
theorem C10_waiting_balanced (steps : List AcquireStep) (s s2 : PoolState)
    (r : AcquireResult) (h : get_connection steps s = (s2, some r)) :
    s2.waiting_requests = s.waiting_requests := by
  unfold get_connection at h
  by_cases hs : s.shutdown_flag = true
  · rw [if_pos hs] at h
    injection h with h1 h2
    rw [← h1]
  · rw [if_neg hs] at h
    have hb := get_connection_loop_waiting _ _ _ _ h
    simpa using hb

/-- C10, witness at a concrete input. -/
theorem C10_waiting_balanced_witness :
    sBorrowed.waiting_requests = (construct {} [0]).waiting_requests :=
  C10_waiting_balanced [step_plain] (construct {} [0]) sBorrowed
    .errInvalidHandle (by decide)

end odbc

